import Mathlib

/-!
Verification development for the nordigen-cli authorization and
credential-lifecycle subsystem.

The Rust sources are embedded shallowly:
  * `src/nordigen/state.rs` — the persisted token state (`NordigenState`)
    and its expiry computations.  `chrono::DateTime<Utc>` instants are
    modelled as integer seconds; the ambient clock `Utc::now()` is passed
    explicitly as a `now` argument.
  * `src/main.rs` — `write_state`, `get_state`, `get_state_or_exit`,
    `do_refresh`, `do_bank_authorization`.  `std::process::exit` is made
    explicit with a `ProcExit` outcome type; the file at the state path is
    a `FileContent` value.
  * `src/nordigen/auth_http_cb.rs` — `parse_request` and
    `wait_for_response`.  The TCP machinery is abstracted to the bind
    outcome and the list of header lines read from the connection; a
    panicking `unwrap` is a distinguished `panicked` outcome.
  * serde_json serialization of the state record is modelled at the level
    of a flat JSON object (`JsonDoc`): a list of named scalar fields, in
    the struct's declaration order, with `u32` range checks on decode.
-/

/-- A scalar JSON value as used by the persisted records: strings and
integer numbers.  The `written_at` RFC3339 rendering of a
`DateTime<Utc>` is modelled by the instant it denotes. -/
inductive JsonVal where
  | str (s : String)
  | num (n : Int)
deriving DecidableEq, Repr

/-- A flat JSON object document: named scalar fields in order. -/
def JsonDoc := List (String × JsonVal)
deriving DecidableEq, Repr

/-- The persisted token state, from `NordigenState` in
`src/nordigen/state.rs`.  `token_expires` and `refresh_expires` are the
provider TTLs in seconds (`u32` in Rust, so a `Nat` expected to be below
`2^32`); `written_at` is the instant the record was persisted, in
seconds. -/
structure NordigenState where
  token : String
  token_expires : Nat
  refresh_token : String
  refresh_expires : Nat
  written_at : Int
deriving DecidableEq, Repr

/-- `NordigenState::token_expires_on`: `written_at + token_expires`
seconds. -/
def NordigenState.token_expires_on (s : NordigenState) : Int :=
  s.written_at + (s.token_expires : Int)

/-- `NordigenState::refresh_expires_on`: `written_at + refresh_expires`
seconds. -/
def NordigenState.refresh_expires_on (s : NordigenState) : Int :=
  s.written_at + (s.refresh_expires : Int)

/-- `NordigenState::is_token_expired`: `token_expires_on() < Utc::now()`,
the clock passed explicitly. -/
def NordigenState.is_token_expired (s : NordigenState) (now : Int) : Bool :=
  s.token_expires_on < now

/-- `NordigenState::is_refresh_expired`: `refresh_expires_on() < Utc::now()`,
the clock passed explicitly. -/
def NordigenState.is_refresh_expired (s : NordigenState) (now : Int) : Bool :=
  s.refresh_expires_on < now

/-- C1 counterexample.  The claim predicts that at the exact boundary
instant `written_at + token_expires` the access token is already
expired.  On the record issued at `0` with a `3600`-second access TTL,
`is_token_expired` at instant `3600` is `false`, although
`3600 ≥ 0 + 3600`. -/
theorem c1_boundary_counterexample :
    NordigenState.is_token_expired
      ⟨"tok", 3600, "ref", 7776000, 0⟩ 3600 = false
    ∧ (3600 : Int) ≥ 0 + 3600 := by
  constructor
  · rfl
  · decide

/-- C1 (amended): expiry is boundary-exclusive.  `is_token_expired c now`
is true exactly when `now > written_at + token_expires` (strictly after
the boundary), and `is_refresh_expired` likewise for the refresh TTL; at
the exact boundary instant the token is not yet expired, and one second
later it is. -/
theorem c1_expiry_boundary_exclusive (s : NordigenState) (now : Int) :
    (s.is_token_expired now = true ↔
      now > s.written_at + (s.token_expires : Int))
    ∧ (s.is_refresh_expired now = true ↔
      now > s.written_at + (s.refresh_expires : Int))
    ∧ s.is_token_expired (s.written_at + (s.token_expires : Int)) = false
    ∧ s.is_token_expired (s.written_at + (s.token_expires : Int) + 1) = true := by
  refine ⟨?_, ?_, ?_, ?_⟩
  · simp [NordigenState.is_token_expired, NordigenState.token_expires_on]
  · simp [NordigenState.is_refresh_expired, NordigenState.refresh_expires_on]
  · simp [NordigenState.is_token_expired, NordigenState.token_expires_on]
  · simp [NordigenState.is_token_expired, NordigenState.token_expires_on]

/-- serde serialization of `NordigenState` (derive `Serialize`): a JSON
object with the five fields in declaration order, as written by
`serde_json::to_writer_pretty`. -/
def NordigenState.toJson (s : NordigenState) : JsonDoc :=
  [("token", .str s.token),
   ("token_expires", .num s.token_expires),
   ("refresh_token", .str s.refresh_token),
   ("refresh_expires", .num s.refresh_expires),
   ("written_at", .num s.written_at)]

/-- Decode a JSON scalar as a Rust `String` field. -/
def JsonVal.asString : JsonVal → Option String
  | .str s => some s
  | .num _ => none

/-- Decode a JSON scalar as a Rust `u32` field, with the range check
serde performs. -/
def JsonVal.asU32 : JsonVal → Option Nat
  | .str _ => none
  | .num n => if 0 ≤ n ∧ n < 4294967296 then some n.toNat else none

/-- Decode a JSON scalar as a `DateTime<Utc>` field (an instant in
seconds in this model). -/
def JsonVal.asInstant : JsonVal → Option Int
  | .str _ => none
  | .num n => some n

/-- serde deserialization of `NordigenState` (derive `Deserialize`), as
run by `serde_json::from_str` in `NordigenState::parse` /
`parse_state`: each named field is looked up in the document and decoded
at its Rust type; any missing or ill-typed field fails the decode. -/
def NordigenState.fromJson (doc : JsonDoc) : Option NordigenState :=
  match (List.lookup "token" doc).bind JsonVal.asString,
      (List.lookup "token_expires" doc).bind JsonVal.asU32,
      (List.lookup "refresh_token" doc).bind JsonVal.asString,
      (List.lookup "refresh_expires" doc).bind JsonVal.asU32,
      (List.lookup "written_at" doc).bind JsonVal.asInstant with
  | some t, some te, some rt, some re, some wa => some ⟨t, te, rt, re, wa⟩
  | _, _, _, _, _ => none

/-- The observable content of the state file at a given path.  `absent`:
no file; `truncated`: the file exists but holds no complete serialized
record (as right after `File::create` truncated it, before — or instead
of — a completed `to_writer_pretty`); `full doc`: a completely written
JSON document. -/
inductive FileContent where
  | absent
  | truncated
  | full (doc : JsonDoc)
deriving DecidableEq, Repr

/-- `get_state` in `src/main.rs`: `ErrorKind::NotFound` when the path
does not exist, `ErrorKind::InvalidData` when the file cannot be parsed
as a `NordigenState`, the parsed record otherwise. -/
def get_state : FileContent → Except String NordigenState
  | .absent => .error "NotFound"
  | .truncated => .error "InvalidData"
  | .full doc =>
      match NordigenState.fromJson doc with
      | none => .error "InvalidData"
      | some st => .ok st

/-- How far a `write_state` invocation got: `File::create` failed;
`File::create` succeeded but `serde_json::to_writer_pretty` failed (or
the process was interrupted before it completed); or both steps
succeeded. -/
inductive WriteProgress where
  | createFailed
  | serializeFailed
  | success
deriving DecidableEq, Repr

/-- The record `write_state` in `src/main.rs` builds
(`NordigenState::new`): `written_at` is `Utc::now()` at the moment of
the write. -/
def NordigenState.mkNew (token : String) (token_ttl : Nat) (refresh : String)
    (refresh_ttl : Nat) (now : Int) : NordigenState :=
  ⟨token, token_ttl, refresh, refresh_ttl, now⟩

/-- Destination content after `write_state` in `src/main.rs` ran to the
given progress point.  `File::create(path)` truncates the destination in
place; only then is the serialized record written. -/
def write_state_fs (old : FileContent) (st : NordigenState) :
    WriteProgress → FileContent
  | .createFailed => old
  | .serializeFailed => .truncated
  | .success => .full st.toJson

/-- The successive destination contents observable while a fully
successful `write_state` runs: after `File::create` (truncated), then
after `to_writer_pretty` (the new record).  The pre-existing content is
destroyed by the first step. -/
def write_state_trace (st : NordigenState) : List FileContent :=
  [.truncated, .full st.toJson]

/-- A `NordigenState` is valid when its two TTL fields fit in a `u32`,
as the Rust type guarantees. -/
def NordigenState.validU32 (s : NordigenState) : Prop :=
  s.token_expires < 4294967296 ∧ s.refresh_expires < 4294967296

set_option maxRecDepth 8192

/-- C7: save/load round-trip.  Writing any valid record and reading the
same location back succeeds and returns the record verbatim, every field
included. -/
theorem c7_save_load_roundtrip (old : FileContent) (x : NordigenState)
    (h : x.validU32) :
    get_state (write_state_fs old x .success) = .ok x := by
  obtain ⟨h1, h2⟩ := h
  have hb1 : (0 : Int) ≤ (x.token_expires : Int) ∧
      (x.token_expires : Int) < 4294967296 := by
    constructor
    · exact Int.natCast_nonneg _
    · exact_mod_cast h1
  have hb2 : (0 : Int) ≤ (x.refresh_expires : Int) ∧
      (x.refresh_expires : Int) < 4294967296 := by
    constructor
    · exact Int.natCast_nonneg _
    · exact_mod_cast h2
  have u32 : ∀ (m : Nat), (0 : Int) ≤ (m : Int) ∧ (m : Int) < 4294967296 →
      JsonVal.asU32 (.num (m : Int)) = some m := by
    intro m hm
    simp only [JsonVal.asU32]
    rw [if_pos hm]
    simp
  have e1 : (List.lookup "token" x.toJson).bind JsonVal.asString
      = some x.token := rfl
  have e2 : (List.lookup "token_expires" x.toJson).bind JsonVal.asU32
      = some x.token_expires := by
    have hl : List.lookup "token_expires" x.toJson
        = some (.num (x.token_expires : Int)) := rfl
    rw [hl, Option.some_bind, u32 _ hb1]
  have e3 : (List.lookup "refresh_token" x.toJson).bind JsonVal.asString
      = some x.refresh_token := rfl
  have e4 : (List.lookup "refresh_expires" x.toJson).bind JsonVal.asU32
      = some x.refresh_expires := by
    have hl : List.lookup "refresh_expires" x.toJson
        = some (.num (x.refresh_expires : Int)) := rfl
    rw [hl, Option.some_bind, u32 _ hb2]
  have e5 : (List.lookup "written_at" x.toJson).bind JsonVal.asInstant
      = some x.written_at := rfl
  have hfrom : NordigenState.fromJson x.toJson = some x := by
    rw [NordigenState.fromJson, e1, e2, e3, e4, e5]
  show get_state (.full x.toJson) = .ok x
  rw [get_state, hfrom]

/-- C7 witness: a concrete record round-trips. -/
theorem c7_save_load_roundtrip_witness :
    get_state (write_state_fs .absent ⟨"tok", 3600, "ref", 7776000, 42⟩
      .success) = .ok ⟨"tok", 3600, "ref", 7776000, 42⟩ :=
  c7_save_load_roundtrip .absent ⟨"tok", 3600, "ref", 7776000, 42⟩
    (by constructor <;> decide)

/-- C3 counterexample.  On a destination holding the record written at
`0`, a `write_state` of a fresh record first truncates the destination:
the truncated content is observable mid-write, is not the old record,
is no complete record at all, and cannot be read back; and after a
failed serialize (`serializeFailed`) the previously persisted record is
not readable either.  This refutes write-to-temp-then-rename atomicity. -/
theorem c3_write_not_atomic_counterexample :
    FileContent.truncated ∈
      write_state_trace ⟨"tok2", 3600, "ref", 7776000, 3601⟩
    ∧ FileContent.truncated ≠
      .full (NordigenState.toJson ⟨"tok", 3600, "ref", 7776000, 0⟩)
    ∧ write_state_fs (.full (NordigenState.toJson ⟨"tok", 3600, "ref", 7776000, 0⟩))
        ⟨"tok2", 3600, "ref", 7776000, 3601⟩ .serializeFailed
      = .truncated
    ∧ get_state .truncated = .error "InvalidData" := by
  refine ⟨List.mem_cons_self _ _, ?_, rfl, rfl⟩
  intro h
  cases h

/-- C3 (amended): `write_state` overwrites the destination in place,
not atomically.  `File::create` truncates the destination before the
record is serialized, so an interruption or serialize failure after the
create leaves a truncated, unreadable file and the previously persisted
record is lost; only when the create itself fails is the old content
preserved.  The truncated intermediate content is observable during
every successful write and is not a complete record. -/
theorem c3_write_in_place (old : FileContent) (st : NordigenState) :
    write_state_fs old st .createFailed = old
    ∧ write_state_fs old st .serializeFailed = .truncated
    ∧ write_state_fs old st .success = .full st.toJson
    ∧ FileContent.truncated ∈ write_state_trace st
    ∧ (∀ doc : JsonDoc, FileContent.truncated ≠ .full doc)
    ∧ get_state .truncated = .error "InvalidData" := by
  refine ⟨rfl, rfl, rfl, List.mem_cons_self _ _, ?_, rfl⟩
  intro doc h
  cases h

/-- The outcome of a CLI-layer operation in `src/main.rs`:
`std::process::exit(code)` made explicit, or a normal return. -/
inductive ProcExit (α : Type) where
  | exited (code : Nat)
  | ok (v : α)
deriving DecidableEq, Repr

/-- `get_state_or_exit` in `src/main.rs`: prints the state error and
calls `std::process::exit(1)` when the state cannot be loaded. -/
def get_state_or_exit (content : FileContent) : ProcExit NordigenState :=
  match get_state content with
  | .error _ => .exited 1
  | .ok st => .ok st

/-- `do_refresh` in `src/main.rs`, with the ambient inputs explicit:
`content` is the state file, `now` the clock at this invocation,
`reply` the outcome of `authorize::refresh` (new access token and TTL),
and `w` how far the final `write_state` gets when it is reached.
Returns the process outcome together with the resulting state-file
content.  Branches, in source order: missing/corrupt state exits 1
(`get_state_or_exit`); a still-valid access token exits 0 without
touching the file; an expired refresh token exits 1 without touching
the file; a failed network refresh exits 1; otherwise `write_state`
persists the new access token and TTL together with the original
refresh token and original refresh TTL, stamped `written_at = now`. -/
def do_refresh (content : FileContent) (now : Int)
    (reply : Except String (String × Nat)) (w : WriteProgress) :
    ProcExit NordigenState × FileContent :=
  match get_state content with
  | .error _ => (.exited 1, content)
  | .ok st =>
    if ¬ st.is_token_expired now then
      (.exited 0, content)
    else if st.is_refresh_expired now then
      (.exited 1, content)
    else
      match reply with
      | .error _ => (.exited 1, content)
      | .ok (new_token, new_expires) =>
        let new_state : NordigenState :=
          NordigenState.mkNew new_token new_expires st.refresh_token
            st.refresh_expires now
        match w with
        | .createFailed => (.exited 1, content)
        | .serializeFailed => (.exited 1, .truncated)
        | .success => (.ok new_state, .full new_state.toJson)

/-- C2 counterexample.  Issue at `t0 = 0` with `refreshTTL = 7776000`
(so the original record's refresh expiry is `7776000`), refresh
successfully at `t1 = 3601`: the persisted record after the refresh has
`refresh_expires_on = 3601 + 7776000 = 7779601`, not the claimed
unchanged `t0 + r = 7776000` — `write_state` stamps `written_at` with
the refresh instant, resetting the refresh-expiry baseline. -/
theorem c2_baseline_counterexample :
    do_refresh (.full (NordigenState.toJson ⟨"tok", 3600, "ref", 7776000, 0⟩))
        3601 (.ok ("tok2", 3600)) .success
      = (.ok ⟨"tok2", 3600, "ref", 7776000, 3601⟩,
         .full (NordigenState.toJson ⟨"tok2", 3600, "ref", 7776000, 3601⟩))
    ∧ NordigenState.refresh_expires_on ⟨"tok2", 3600, "ref", 7776000, 3601⟩
      = 7779601
    ∧ NordigenState.refresh_expires_on ⟨"tok", 3600, "ref", 7776000, 0⟩
      = 7776000
    ∧ (7779601 : Int) ≠ 7776000 := by
  refine ⟨rfl, by decide, by decide, by decide⟩

/-- C2 (amended): a successful refresh persists a record combining the
new access token and TTL with the original refresh token string and
original refresh TTL value, but stamped `written_at = now`, so the new
record's refresh expiry is `now + refreshTTL` — the refresh-expiry
baseline is reset to the refresh instant instead of continuing from the
original issuance. -/
theorem c2_refresh_resets_baseline (content : FileContent)
    (st : NordigenState) (now : Int) (new_token : String) (new_expires : Nat)
    (hload : get_state content = .ok st)
    (hexp : st.is_token_expired now = true)
    (href : st.is_refresh_expired now = false) :
    do_refresh content now (.ok (new_token, new_expires)) .success
      = (.ok (NordigenState.mkNew new_token new_expires st.refresh_token
            st.refresh_expires now),
         .full (NordigenState.mkNew new_token new_expires st.refresh_token
            st.refresh_expires now).toJson)
    ∧ (NordigenState.mkNew new_token new_expires st.refresh_token
        st.refresh_expires now).refresh_expires_on
      = now + (st.refresh_expires : Int) := by
  constructor
  · unfold do_refresh
    rw [hload]
    simp [hexp, href]
  · simp [NordigenState.mkNew, NordigenState.refresh_expires_on]

/-- C2 witness: the amended statement at the concrete scenario of the
counterexample. -/
theorem c2_refresh_resets_baseline_witness :
    do_refresh (.full (NordigenState.toJson ⟨"tok", 3600, "ref", 7776000, 0⟩))
        3601 (.ok ("tok2", 3600)) .success
      = (.ok (NordigenState.mkNew "tok2" 3600 "ref" 7776000 3601),
         .full (NordigenState.mkNew "tok2" 3600 "ref" 7776000 3601).toJson)
    ∧ (NordigenState.mkNew "tok2" 3600 "ref" 7776000 3601).refresh_expires_on
      = 3601 + (7776000 : Int) :=
  c2_refresh_resets_baseline
    (.full (NordigenState.toJson ⟨"tok", 3600, "ref", 7776000, 0⟩))
    ⟨"tok", 3600, "ref", 7776000, 0⟩ 3601 "tok2" 3600 rfl rfl rfl

/-- C6 counterexample.  A persisted record whose refresh token is
expired but whose access token is still valid: issued at `0` with
`accessTTL = 7200` and `refreshTTL = 3600`, clock at `5000`.  The claim
requires the operation to fail with `ExpiredError`; `do_refresh`
instead takes the still-valid-access branch first and exits `0` as a
no-op. -/
theorem c6_refresh_counterexample :
    NordigenState.is_refresh_expired ⟨"tok", 7200, "ref", 3600, 0⟩ 5000 = true
    ∧ NordigenState.is_token_expired ⟨"tok", 7200, "ref", 3600, 0⟩ 5000 = false
    ∧ do_refresh (.full (NordigenState.toJson ⟨"tok", 7200, "ref", 3600, 0⟩))
        5000 (.ok ("tok2", 3600)) .success
      = (.exited 0, .full (NordigenState.toJson ⟨"tok", 7200, "ref", 3600, 0⟩)) :=
  ⟨rfl, rfl, rfl⟩

/-- C6 (amended): `do_refresh` mutates the persisted record only when
the access token is expired and the refresh token is not.  When the
access token is still valid it is a no-op leaving the state file
byte-identical (exit 0), even if the refresh token is already expired;
when both the access and the refresh token are expired it fails
(exit 1, the expired-refresh path) without mutating the state file; and
whenever the file content changes at all, the loaded record had an
expired access token and a valid refresh token. -/
theorem c6_refresh_frame (content : FileContent) (now : Int)
    (reply : Except String (String × Nat)) (w : WriteProgress) :
    (∀ st : NordigenState, get_state content = .ok st →
      st.is_token_expired now = false →
      do_refresh content now reply w = (.exited 0, content))
    ∧ (∀ st : NordigenState, get_state content = .ok st →
      st.is_token_expired now = true → st.is_refresh_expired now = true →
      do_refresh content now reply w = (.exited 1, content))
    ∧ ((do_refresh content now reply w).2 ≠ content →
      ∃ st : NordigenState, get_state content = .ok st
        ∧ st.is_token_expired now = true
        ∧ st.is_refresh_expired now = false) := by
  refine ⟨?_, ?_, ?_⟩
  · intro st hst hexp
    unfold do_refresh
    rw [hst]
    simp [hexp]
  · intro st hst hexp href
    unfold do_refresh
    rw [hst]
    simp [hexp, href]
  · intro hchanged
    unfold do_refresh at hchanged
    cases hg : get_state content with
    | error e =>
      rw [hg] at hchanged
      simp at hchanged
    | ok st =>
      rw [hg] at hchanged
      by_cases hexp : st.is_token_expired now = true
      · by_cases href : st.is_refresh_expired now = true
        · simp [hexp, href] at hchanged
        · exact ⟨st, rfl, hexp, by simpa using href⟩
      · rw [Bool.not_eq_true] at hexp
        simp [hexp] at hchanged

/-- C6 witness: the amended statement's no-op clause at a concrete
still-valid record. -/
theorem c6_refresh_frame_witness :
    do_refresh (.full (NordigenState.toJson ⟨"tok", 3600, "ref", 7776000, 0⟩))
        100 (.ok ("tok2", 3600)) .success
      = (.exited 0, .full (NordigenState.toJson ⟨"tok", 3600, "ref", 7776000, 0⟩)) :=
  (c6_refresh_frame
    (.full (NordigenState.toJson ⟨"tok", 3600, "ref", 7776000, 0⟩))
    100 (.ok ("tok2", 3600)) .success).1
    ⟨"tok", 3600, "ref", 7776000, 0⟩ rfl rfl

/-- Split a character list at every occurrence of `c`, keeping empty
segments, as Rust's `str::split` with a single-character pattern does
(`"".split` yields `[""]`; a trailing separator yields a trailing empty
segment). -/
def splitOnCharAux (c : Char) : List Char → List Char → List (List Char)
  | [], acc => [acc.reverse]
  | x :: xs, acc =>
    if x = c then acc.reverse :: splitOnCharAux c xs []
    else splitOnCharAux c xs (x :: acc)

/-- Rust `str::split` with a one-character pattern. -/
def splitOnChar (c : Char) (s : String) : List String :=
  (splitOnCharAux c s.toList []).map String.mk

/-- Split at whitespace runs, dropping empty segments, as Rust's
`str::split_whitespace` does. -/
def splitWsAux : List Char → List Char → List (List Char)
  | [], acc => if acc.isEmpty then [] else [acc.reverse]
  | x :: xs, acc =>
    if x.isWhitespace then
      if acc.isEmpty then splitWsAux xs []
      else acc.reverse :: splitWsAux xs []
    else splitWsAux xs (x :: acc)

/-- Rust `str::split_whitespace`. -/
def splitWhitespaceS (s : String) : List String :=
  (splitWsAux s.toList []).map String.mk

/-- ASCII lower-casing of one character, modelling Rust's
`str::to_lowercase` on the ASCII request methods it is applied to. -/
def charLower (c : Char) : Char :=
  if 'A' ≤ c ∧ c ≤ 'Z' then Char.ofNat (c.toNat + 32) else c

/-- Rust `str::to_lowercase` (ASCII). -/
def toLowerStr (s : String) : String :=
  String.mk (s.toList.map charLower)

/-- Index of the first occurrence of `c`, as Rust's `str::find` with a
one-character pattern (character counts model the ASCII byte offsets of
the request line). -/
def findCharIdx (c : Char) : List Char → Option Nat
  | [] => none
  | x :: xs =>
    if x = c then some 0 else (findCharIdx c xs).map (· + 1)

/-- One `key=value` candidate of the query string: Rust splits `v` on
`"="` and keeps it only when that yields exactly two parts
(`kv.len() != 2` pairs are skipped). -/
def kvOf (v : String) : Option (String × String) :=
  match splitOnChar '=' v with
  | [k, value] => some (k, value)
  | _ => none

/-- The `for_each`/`map.insert` loop of `parse_request`: each
well-formed pair is inserted into the map, a later insert of the same
key overwriting an earlier one.  The map is an association list read
through `List.lookup`, so consing the newest binding to the front gives
`HashMap::insert` overwrite semantics. -/
def buildParams (pairs : List String) : List (String × String) :=
  pairs.foldl
    (fun m v =>
      match kvOf v with
      | some p => p :: m
      | none => m)
    []

/-- `parse_request` in `src/nordigen/auth_http_cb.rs`: validate the
request line of the header lines `req` and parse the query-string
parameter map. -/
def parse_request (req : List String) : Except String (List (String × String)) :=
  match req with
  | [] => .error "empty request"
  | first :: _ =>
    let request_line := splitWhitespaceS first
    if request_line.length < 3 then
      .error ("Unexpected request line: " ++ first)
    else
      let method := request_line.getD 0 ""
      let target := request_line.getD 1 ""
      if toLowerStr method ≠ "get" then
        .error ("Unexpected method: " ++ method)
      else
        match findCharIdx '?' target.toList with
        | none => .error "No parameters provided!"
        | some pos =>
          if target.toList.length < pos + 1 then
            .error "Parameters not provided."
          else
            let params_str := String.mk (target.toList.drop (pos + 1))
            .ok (buildParams (splitOnChar '&' params_str))

/-- The result computation of `wait_for_response` after the request
lines were read (lines 86–95): parse the request and look up `ref`. -/
def processRequest (request : List String) : Except String String :=
  match parse_request request with
  | .error e => .error ("Error obtaining ref: " ++ e)
  | .ok map =>
    match List.lookup "ref" map with
    | some v => .ok v
    | none => .error "Callback did not provide ref"

/-- Outcome of a low-level operation that may panic:
`TcpListener::bind(...).unwrap()` aborts the process on a bind error
rather than returning it. -/
inductive LowOutcome (α : Type) where
  | ret (v : α)
  | panicked (msg : String)
deriving DecidableEq, Repr

/-- True exactly when the outcome is a normal return. -/
def LowOutcome.isRet {α : Type} : LowOutcome α → Bool
  | .ret _ => true
  | .panicked _ => false

/-- `wait_for_response` in `src/nordigen/auth_http_cb.rs`, with the
ambient inputs explicit: `bindResult` is the outcome of
`TcpListener::bind("127.0.0.1:1337")`, on which the code calls
`.unwrap()` (a panic on error); `lines` are the lines read from the
accepted connection, of which the code keeps those up to the first
empty line (`take_while(|line| !line.is_empty())`). -/
def wait_for_response (bindResult : Except String Unit)
    (lines : List String) : LowOutcome (Except String String) :=
  match bindResult with
  | .error e => .panicked e
  | .ok _ =>
    let request := lines.takeWhile (fun l => !l.isEmpty)
    .ret (processRequest request)

/-- C4 counterexample.  When the listener's local port is already in
use, `TcpListener::bind("127.0.0.1:1337").unwrap()` panics — the
listener aborts the process instead of returning a typed `BindError`;
and `get_state_or_exit` terminates the process (exit 1) on a missing
state file instead of returning a typed failure. -/
theorem c4_bind_aborts_counterexample :
    wait_for_response (.error "Address already in use (os error 98)") []
      = .panicked "Address already in use (os error 98)"
    ∧ (wait_for_response
        (.error "Address already in use (os error 98)") []).isRet = false
    ∧ get_state_or_exit .absent = .exited 1 :=
  ⟨rfl, rfl, rfl⟩

/-- C4 (amended): core failures terminate the process rather than
propagating as typed results.  Every bind failure makes
`wait_for_response` panic with the bind error (never a normal return,
typed or otherwise), and `get_state_or_exit` exits the process with
code 1 on a missing or unreadable state file. -/
theorem c4_failures_terminate_process (e : String) (lines : List String) :
    wait_for_response (.error e) lines = .panicked e
    ∧ (wait_for_response (.error e) lines).isRet = false
    ∧ get_state_or_exit .absent = .exited 1
    ∧ get_state_or_exit .truncated = .exited 1 :=
  ⟨rfl, rfl, rfl, rfl⟩

/-- The insert loop of `parse_request` builds, over any accumulator, the
reverse of the well-formed pairs consed onto it. -/
theorem buildParams_foldl (l : List String) (acc : List (String × String)) :
    List.foldl
      (fun m v =>
        match kvOf v with
        | some p => p :: m
        | none => m)
      acc l
      = (l.filterMap kvOf).reverse ++ acc := by
  induction l generalizing acc with
  | nil => simp
  | cons v t ih =>
    simp only [List.foldl_cons, List.filterMap_cons]
    cases h : kvOf v with
    | none => simp [h, ih]
    | some p => simp [h, ih]

/-- The parameter map is the reversed list of well-formed pairs. -/
theorem buildParams_eq (l : List String) :
    buildParams l = (l.filterMap kvOf).reverse := by
  unfold buildParams
  simpa using buildParams_foldl l []

/-- `List.lookup` distributes over append, preferring the left list. -/
theorem lookupParams_append (k : String) (xs ys : List (String × String)) :
    List.lookup k (xs ++ ys)
      = match List.lookup k xs with
        | some v => some v
        | none => List.lookup k ys := by
  induction xs with
  | nil => simp [List.lookup]
  | cons p t ih =>
    obtain ⟨a, b⟩ := p
    simp only [List.cons_append, List.lookup]
    cases hk : (k == a) with
    | true => rfl
    | false => simpa using ih

/-- Looking a key up in the reversed association list returns the value
of the last pair carrying that key. -/
theorem lookupParams_reverse (k : String) (l : List (String × String)) :
    List.lookup k l.reverse
      = ((l.filter (fun p => p.1 == k)).getLast?).map Prod.snd := by
  induction l using List.reverseRecOn with
  | nil => rfl
  | append_singleton t a ih =>
    obtain ⟨x, y⟩ := a
    rw [List.reverse_append, List.filter_append]
    by_cases h : x = k
    · subst h
      simp [List.lookup, List.getLast?_concat]
    · have hx : ((x, y).1 == k) = false := by
        simp only [beq_eq_false_iff_ne, ne_eq]
        exact h
      have hk : (k == x) = false := by
        simp only [beq_eq_false_iff_ne, ne_eq]
        exact fun hh => h hh.symm
      simp [List.lookup, hk, hx, ih]

/-- C8: callback happy path.  A request whose first header line is
`GET /?ref=abc123&other=1 HTTP/1.1` makes the listener yield
`Ok("abc123")` whatever the remaining header lines are; a query-string
pair that does not split on `=` into exactly two parts is silently
skipped, leaving the parse of the remaining pairs untouched — as in the
request line `GET /?broken&ref=abc123&a=b=c HTTP/1.1`, which still
yields `Ok("abc123")`. -/
theorem c8_callback_happy_path :
    (∀ rest : List String,
      wait_for_response (.ok ())
          ("GET /?ref=abc123&other=1 HTTP/1.1" :: rest)
        = .ret (.ok "abc123"))
    ∧ (∀ (l1 l2 : List String) (v : String), kvOf v = none →
      buildParams (l1 ++ v :: l2) = buildParams (l1 ++ l2))
    ∧ (∀ rest : List String,
      wait_for_response (.ok ())
          ("GET /?broken&ref=abc123&a=b=c HTTP/1.1" :: rest)
        = .ret (.ok "abc123")) := by
  refine ⟨fun rest => rfl, ?_, fun rest => rfl⟩
  intro l1 l2 v hv
  rw [buildParams_eq, buildParams_eq]
  simp [List.filterMap_append, List.filterMap_cons, hv]

/-- C8 witness: the happy-path line with no further headers, and a
concrete malformed pair skipped between two well-formed ones. -/
theorem c8_callback_happy_path_witness :
    wait_for_response (.ok ()) ["GET /?ref=abc123&other=1 HTTP/1.1"]
      = .ret (.ok "abc123")
    ∧ buildParams (["x=y"] ++ "broken" :: ["a=b"])
      = buildParams (["x=y"] ++ ["a=b"]) :=
  ⟨c8_callback_happy_path.1 [],
   c8_callback_happy_path.2.1 ["x=y"] ["a=b"] "broken" rfl⟩

/-- C9 counterexample.  The request method `get` is not the string
`GET`, yet `parse_request` accepts it and the listener yields the
reference: the method check lower-cases the method first, so the claim
that every non-`GET` method fails does not hold. -/
theorem c9_lowercase_method_counterexample :
    processRequest ["get /?ref=a HTTP/1.1"] = .ok "a"
    ∧ wait_for_response (.ok ()) ["get /?ref=a HTTP/1.1"] = .ret (.ok "a")
    ∧ "get" ≠ "GET" := by
  refine ⟨rfl, rfl, by decide⟩

/-- C9 (amended): the method check is case-insensitive.  For any first
header line with at least three whitespace-separated tokens whose first
token does not lower-case to `get`, `parse_request` fails with the
unexpected-method error and the listener yields that error to the
caller rather than a reference. -/
theorem c9_method_check_case_insensitive (first : String)
    (rest : List String)
    (h3 : ¬ (splitWhitespaceS first).length < 3)
    (hm : toLowerStr ((splitWhitespaceS first).getD 0 "") ≠ "get") :
    parse_request (first :: rest)
      = .error ("Unexpected method: " ++ (splitWhitespaceS first).getD 0 "")
    ∧ processRequest (first :: rest)
      = .error ("Error obtaining ref: "
          ++ ("Unexpected method: " ++ (splitWhitespaceS first).getD 0 "")) := by
  have hp : parse_request (first :: rest)
      = .error ("Unexpected method: " ++ (splitWhitespaceS first).getD 0 "") := by
    simp only [parse_request]
    rw [if_neg h3, if_pos hm]
  refine ⟨hp, ?_⟩
  unfold processRequest
  rw [hp]

/-- C9 witness: a `POST` request is rejected with the unexpected-method
error. -/
theorem c9_method_check_witness :
    parse_request ["POST /?ref=a HTTP/1.1"]
      = .error ("Unexpected method: "
          ++ (splitWhitespaceS "POST /?ref=a HTTP/1.1").getD 0 "")
    ∧ processRequest ["POST /?ref=a HTTP/1.1"]
      = .error ("Error obtaining ref: "
          ++ ("Unexpected method: "
            ++ (splitWhitespaceS "POST /?ref=a HTTP/1.1").getD 0 "")) :=
  c9_method_check_case_insensitive "POST /?ref=a HTTP/1.1" []
    (by decide) (by decide)

/-- C10: duplicate query keys — the last occurrence wins.  In general,
looking any key up in the parsed parameter map of a query string
returns the value of the last well-formed pair carrying that key; in
particular the request line `GET /?ref=a&ref=b HTTP/1.1` yields
`Ok("b")`. -/
theorem c10_last_occurrence_wins :
    (∀ (q k : String),
      List.lookup k (buildParams (splitOnChar '&' q))
        = ((((splitOnChar '&' q).filterMap kvOf).filter
            (fun p => p.1 == k)).getLast?).map Prod.snd)
    ∧ processRequest ["GET /?ref=a&ref=b HTTP/1.1"] = .ok "b" := by
  refine ⟨?_, rfl⟩
  intro q k
  rw [buildParams_eq, lookupParams_reverse]

/-- Modelled from the spec: the requisition data produced at consent
start by `banks::Authorize::start` (the `banks` module is not part of
the checked sources; per §4.2, `startBankConsent` returns a requisition
identifier together with the reference the callback must echo). -/
structure Requisition where
  requisition_id : String
  reference : String
deriving DecidableEq, Repr

/-- Modelled from the spec: the persisted bank-consent record
`banks::BankAuthState` (§3 BankConsent): the bank id together with the
requisition data captured by the completed handshake. -/
structure BankAuthState where
  bank_id : String
  requisition : Requisition
deriving DecidableEq, Repr

/-- Modelled from the spec: `banks::Authorize::wait_callback` (the
`banks` module is not part of the checked sources).  Per §4.4 steps
3–4: block on the `CallbackListener`, then compare the returned
reference with the one issued at consent start; listener failure or a
mismatched reference is a handshake failure, a match completes the
requisition. -/
def wait_callback (expected : Requisition)
    (listenerResult : Except String String) : Except String Requisition :=
  match listenerResult with
  | .error e => .error ("HandshakeError: " ++ e)
  | .ok r =>
    if r = expected.reference then .ok expected
    else .error "HandshakeError: reference mismatch"

/-- `do_bank_authorization` in `src/main.rs`, with the ambient inputs
explicit: the token state file, the clock, the outcome of
`auth.start()` (the consent link together with the pending
requisition), the listener outcome consumed by `wait_callback`, and the
current content of the bank store file.  Every failure exits the
process with code 1 and leaves the bank store untouched; only a
matched callback reaches `write_bank`. -/
def do_bank_authorization (content : FileContent) (now : Int)
    (bank_id : String) (startResult : Except String (String × Requisition))
    (listenerResult : Except String String)
    (bankStore : Option BankAuthState) :
    ProcExit Unit × Option BankAuthState :=
  match get_state content with
  | .error _ => (.exited 1, bankStore)
  | .ok st =>
    if st.is_token_expired now then (.exited 1, bankStore)
    else
      match startResult with
      | .error _ => (.exited 1, bankStore)
      | .ok (_link, expected) =>
        match wait_callback expected listenerResult with
        | .error _ => (.exited 1, bankStore)
        | .ok requisition => (.ok (), some ⟨bank_id, requisition⟩)

/-- C5: a mismatched or failed callback persists no bank consent.
Whenever the listener fails, or returns a reference different from the
one issued at consent start, `wait_callback` yields a handshake error
and `do_bank_authorization` fails (exit 1) leaving the bank store
exactly as it was — no `BankAuthState` record is written. -/
theorem c5_handshake_failure_no_persist (content : FileContent)
    (now : Int) (bank_id link : String) (expected : Requisition)
    (listenerResult : Except String String)
    (bankStore : Option BankAuthState)
    (hfail : (∃ e, listenerResult = .error e)
      ∨ (∃ r, listenerResult = .ok r ∧ r ≠ expected.reference)) :
    (∃ msg, wait_callback expected listenerResult = .error msg)
    ∧ do_bank_authorization content now bank_id (.ok (link, expected))
        listenerResult bankStore
      = (.exited 1, bankStore) := by
  have hwc : ∃ msg, wait_callback expected listenerResult = .error msg := by
    rcases hfail with ⟨e, he⟩ | ⟨r, hr, hne⟩
    · exact ⟨"HandshakeError: " ++ e, by subst he; rfl⟩
    · refine ⟨"HandshakeError: reference mismatch", ?_⟩
      subst hr
      show (if r = expected.reference then Except.ok expected
        else Except.error "HandshakeError: reference mismatch")
          = Except.error "HandshakeError: reference mismatch"
      rw [if_neg hne]
  obtain ⟨msg, hmsg⟩ := hwc
  refine ⟨⟨msg, hmsg⟩, ?_⟩
  unfold do_bank_authorization
  cases hg : get_state content with
  | error e => rfl
  | ok st =>
    by_cases hexp : st.is_token_expired now = true
    · simp [hexp]
    · rw [Bool.not_eq_true] at hexp
      simp [hexp, hmsg]

/-- C5 witness: a valid token state, a pending requisition expecting
`expect`, and a callback that returns `other`: the operation fails and
the (empty) bank store stays empty. -/
theorem c5_handshake_failure_witness :
    (∃ msg, wait_callback ⟨"reqid", "expect"⟩ (.ok "other") = .error msg)
    ∧ do_bank_authorization
        (.full (NordigenState.toJson ⟨"tok", 3600, "ref", 7776000, 0⟩))
        100 "bank1" (.ok ("link", ⟨"reqid", "expect"⟩)) (.ok "other") none
      = (.exited 1, none) :=
  c5_handshake_failure_no_persist
    (.full (NordigenState.toJson ⟨"tok", 3600, "ref", 7776000, 0⟩))
    100 "bank1" "link" ⟨"reqid", "expect"⟩ (.ok "other") none
    (Or.inr ⟨"other", rfl, by decide⟩)
